import Mathlib

/-!
# Verification of the trip-planning control loop

A shallow embedding, in Lean 4, of the core control-loop logic of the
trip-planning backend (`backend/app`): the Scout agent's change detector
(`scout.py`), the Simulator agent's emergency replanner (`simulator.py`),
the Validator agent's constraint checks (`validator.py`), and the
Orchestrator's plan-confirmation state transition (`orchestrator.py`).

Modelling conventions, used throughout:

* Python `float` values are modelled as exact rationals (`ℚ`).  Non-integer
  constants from the source are written with `mkRat` (e.g. `mkRat 6 10` for
  the literal `0.6`) so that they evaluate inside the kernel.
* `datetime` timestamps are modelled as an abstract tick counter (`Nat`);
  every function that calls `datetime.utcnow()` takes the current tick as an
  explicit `now` argument.
* Python strings are Lean `String`s.  The string operations the source uses
  (`in`, `split`, `lower`, `int(...)`) are re-implemented over `String.data`
  by structural recursion, mirroring Python semantics (documented at each
  definition), because the corresponding core-library functions are defined
  by well-founded recursion and do not evaluate in the kernel.
* Python exceptions at a function's interface are modelled with `Except`;
  functions whose exceptions are caught internally stay total.
* Human-readable f-string messages whose *content* matters to the spec are
  modelled as structured values (`ValidatorMsg`) carrying the interpolated
  data; purely presentational number formatting is abstracted by `ratStr`.
-/

namespace TripPlanner

/-! ## Python-style string primitives (structural recursion) -/

/-- `startsWithChars s pat`: does `s` begin with `pat`?  (Python slice test
`s[:len(pat)] == pat`.) -/
def startsWithChars : List Char → List Char → Bool
  | _, [] => true
  | [], _ :: _ => false
  | c :: cs, d :: ds => c == d && startsWithChars cs ds

/-- Python's substring test `pat in s` on character lists. -/
def containsChars : List Char → List Char → Bool
  | [], pat => pat.isEmpty
  | c :: rest, pat => startsWithChars (c :: rest) pat || containsChars rest pat

/-- Python's `needle in haystack` for strings. -/
def pyContains (haystack needle : String) : Bool :=
  containsChars haystack.data needle.data

/-- Prepend a character to the first piece of a split result. -/
def consHead (c : Char) : List (List Char) → List (List Char)
  | [] => [[c]]
  | p :: ps => (c :: p) :: ps

/-- Worker for `pySplitOn`: split at non-overlapping occurrences of `sep`,
left to right.  `fuel` bounds the recursion; every call site passes the
length of the input, which always suffices because each step consumes at
least one character. -/
def pySplitOnFuel (sep : List Char) : Nat → List Char → List (List Char)
  | _, [] => [[]]
  | 0, s => [s]
  | Nat.succ fuel, c :: rest =>
    if startsWithChars (c :: rest) sep then
      [] :: pySplitOnFuel sep fuel (List.drop (sep.length - 1) rest)
    else
      consHead c (pySplitOnFuel sep fuel rest)

/-- Python's `s.split(sep)` for a non-empty separator.  (Python raises
`ValueError` on an empty separator; the sources only ever split on `" - "`
and `":"`, so that branch is modelled as the identity.) -/
def pySplitOn (s sep : String) : List String :=
  if sep.data.isEmpty then [s]
  else (pySplitOnFuel sep.data s.data.length s.data).map (fun cs => String.mk cs)

/-- Split at every character satisfying `p`, keeping empty pieces. -/
def splitWhenChars (p : Char → Bool) : List Char → List (List Char)
  | [] => [[]]
  | c :: rest =>
    if p c then [] :: splitWhenChars p rest else consHead c (splitWhenChars p rest)

/-- Python's whitespace `s.split()`: split on runs of whitespace and drop
empty pieces. -/
def pySplitWs (s : String) : List String :=
  ((splitWhenChars (fun c => c.isWhitespace) s.data).filter (fun p => ¬ p.isEmpty)).map
    (fun cs => String.mk cs)

/-- Python's `s.lower()` (ASCII case folding, as `Char.toLower`). -/
def pyLower (s : String) : String := String.mk (s.data.map Char.toLower)

/-- Both-ends whitespace strip, as Python's `int` applies to its argument. -/
def trimChars (s : List Char) : List Char :=
  ((s.dropWhile (fun c => c.isWhitespace)).reverse.dropWhile
    (fun c => c.isWhitespace)).reverse

/-- Value of a non-empty all-digit character list. -/
def digitsVal : List Char → Option Nat
  | [] => none
  | [c] => if c.isDigit then some (c.toNat - 48) else none
  | c :: rest =>
    match digitsVal rest, if c.isDigit then some (c.toNat - 48) else none with
    | some r, some d => some (d * 10 ^ rest.length + r)
    | _, _ => none

/-- Python's `int(s)`: strip whitespace, optional sign, decimal digits.
(Python additionally accepts digit-grouping underscores and non-ASCII
digits; those never occur in the parsed `HH:MM` fields and are not
modelled.) -/
def pyInt? (s : String) : Option Int :=
  match trimChars s.data with
  | '-' :: ds => (digitsVal ds).map (fun n => -(n : Int))
  | '+' :: ds => (digitsVal ds).map (fun n => (n : Int))
  | ds => (digitsVal ds).map (fun n => (n : Int))

/-- Rendering of a rational into a string, standing in for Python's decimal
`str(float)` inside log/alert messages (presentational only; no claim
inspects these characters). -/
def ratStr (q : ℚ) : String :=
  q.num.repr ++ (if q.den = 1 then "" else "/" ++ Nat.repr q.den)

/-! ## Domain model (`app/schemas/domain.py`) -/

/-- `PlanStatus` enumeration (domain.py lines 18-30). -/
inductive PlanStatus
  | DRAFT | GENERATING | VALIDATING | VERIFIED | ACTIVE | MONITORING
  | COMPLETED | CANCELLED
deriving DecidableEq, Repr

/-- `ActivityType` enumeration (domain.py lines 32-38). -/
inductive ActivityType
  | INDOOR | OUTDOOR
deriving DecidableEq, Repr

/-- `AlertSeverity` enumeration (domain.py lines 40-50). -/
inductive AlertSeverity
  | INFO | WARNING | CRITICAL
deriving DecidableEq, Repr

/-- `WeatherCode` enumeration (domain.py lines 52-64). -/
inductive WeatherCode
  | CLEAR | PARTLY_CLOUDY | CLOUDY | RAIN_LIGHT | RAIN_HEAVY | SNOW | STORM | FOG
deriving DecidableEq, Repr, Fintype

/-- The `.value` string of each `WeatherCode` member. -/
def WeatherCode.value : WeatherCode → String
  | .CLEAR => "clear"
  | .PARTLY_CLOUDY => "partly_cloudy"
  | .CLOUDY => "cloudy"
  | .RAIN_LIGHT => "rain_light"
  | .RAIN_HEAVY => "rain_heavy"
  | .SNOW => "snow"
  | .STORM => "storm"
  | .FOG => "fog"

/-- `GeoLocation` (domain.py lines 71-88). -/
structure GeoLocation where
  lat : ℚ
  lng : ℚ
  address : String
deriving DecidableEq, Repr

/-- `BudgetInfo` (domain.py lines 90-100). -/
structure BudgetInfo where
  amount : ℚ
  currency : String := "USD"
  category : String := "general"
deriving DecidableEq, Repr

/-- `ActivityItem` (domain.py lines 107-159).  The free-form
`constraints: Optional[Dict[str, Any]]` map is modelled as an optional
association list with string values. -/
structure ActivityItem where
  activity_id : String
  name : String
  time_slot : String
  location : GeoLocation
  budget : BudgetInfo
  type : ActivityType
  description : Option String := none
  constraints : Option (List (String × String)) := none
  risk_score : ℚ := 0
  status : String := "pending"
deriving DecidableEq, Repr

/-- `TripPlan` (domain.py lines 161-209). -/
structure TripPlan where
  plan_id : String
  name : String
  status : PlanStatus := .DRAFT
  main_itinerary : List ActivityItem
  alternatives : List ActivityItem := []
  reasoning_path : Option String := none
  created_at : Nat := 0
  updated_at : Nat := 0
deriving DecidableEq, Repr

/-- `UserProfile` (domain.py lines 211-243). -/
structure UserProfile where
  user_id : String
  budget_limit : ℚ
  preferences : List String := []
  sensitive_to_rain : Bool := false
  dietary_restrictions : Option (List String) := none
  mobility_constraints : Option (List (String × String)) := none
deriving DecidableEq, Repr

/-- `EnvironmentState` (domain.py lines 245-283). -/
structure EnvironmentState where
  location_id : String
  timestamp : Nat
  weather_code : WeatherCode
  temperature : ℚ
  precipitation_probability : Option ℚ := none
  traffic_index : ℚ
  is_poi_open : Option Bool := none
deriving DecidableEq, Repr

/-- `AlertSignal` (domain.py lines 285-319). -/
structure AlertSignal where
  source : String := "SCOUT_AGENT"
  change_type : String
  message : String
  trigger_value : String
  severity : AlertSeverity
  affected_plan_id : String
  payload : EnvironmentState
  timestamp : Nat
deriving DecidableEq, Repr

/-! ## Scout agent (`app/agents/scout.py`) -/

/-- The `critical_conditions` set of `_assess_weather_severity`
(scout.py line 329). -/
def critical_conditions : List WeatherCode := [.RAIN_HEAVY, .STORM, .SNOW]

/-- `ScoutAgent._assess_weather_severity` (scout.py lines 314-344). -/
def assess_weather_severity (old_weather new_weather : WeatherCode) : AlertSeverity :=
  if old_weather ∉ critical_conditions ∧ new_weather ∈ critical_conditions then
    .CRITICAL
  else if new_weather = .RAIN_LIGHT then
    .WARNING
  else if old_weather ∈ critical_conditions ∧ new_weather = .CLEAR then
    .INFO
  else
    .WARNING

/-- `ScoutAgent.compare_states` (scout.py lines 168-233).  The emitted
signal's `timestamp` field is stamped from `datetime.utcnow()`, passed here
as `now`; everything else is computed from the two snapshots alone. -/
def compare_states (last current : EnvironmentState) (now : Nat) : Option AlertSignal :=
  if last.weather_code ≠ current.weather_code then
    some
      { source := "SCOUT_AGENT"
        change_type := "weather"
        message := "Weather changed from " ++ last.weather_code.value ++ " to "
          ++ current.weather_code.value
        trigger_value := current.weather_code.value
        severity := assess_weather_severity last.weather_code current.weather_code
        affected_plan_id := ""
        payload := current
        timestamp := now }
  else
    let traffic_delta := |current.traffic_index - last.traffic_index|
    if traffic_delta > 3 then
      some
        { source := "SCOUT_AGENT"
          change_type := "traffic"
          message := "Traffic spiked from " ++ ratStr last.traffic_index ++ " to "
            ++ ratStr current.traffic_index
          trigger_value := ratStr current.traffic_index
          severity := if traffic_delta < 5 then .WARNING else .CRITICAL
          affected_plan_id := ""
          payload := current
          timestamp := now }
    else
      let temp_delta := |current.temperature - last.temperature|
      if temp_delta > 10 then
        some
          { source := "SCOUT_AGENT"
            change_type := "temperature"
            message := "Temperature changed by " ++ ratStr temp_delta ++ "°C"
            trigger_value := ratStr current.temperature
            severity := .WARNING
            affected_plan_id := ""
            payload := current
            timestamp := now }
      else
        none

/-- The claim's severity transition table, written from the spec's words
(§4.3 item 1) for comparison against `assess_weather_severity`: into a
critical code from a non-critical one ⇒ CRITICAL; into RAIN_LIGHT ⇒
WARNING; out of a critical code into CLEAR ⇒ INFO; every other transition ⇒
WARNING. -/
def spec_weather_severity_table (old_weather new_weather : WeatherCode) : AlertSeverity :=
  if new_weather ∈ critical_conditions ∧ old_weather ∉ critical_conditions then
    .CRITICAL
  else if new_weather = .RAIN_LIGHT then
    .WARNING
  else if new_weather = .CLEAR ∧ old_weather ∈ critical_conditions then
    .INFO
  else
    .WARNING

/-! ## Simulator agent (`app/agents/simulator.py`) -/

/-- The per-activity selection test of `emergency_replan` step 2
(simulator.py lines 399-410): a CRITICAL alert selects every OUTDOOR
activity with `risk_score > 0.6`, a WARNING alert every OUTDOOR activity
with `risk_score > 0.8`; INFO never reaches this point (the INFO case
returns first) and selects nothing. -/
def is_affected (severity : AlertSeverity) (activity : ActivityItem) : Bool :=
  match severity with
  | .CRITICAL => decide (activity.type = .OUTDOOR ∧ mkRat 6 10 < activity.risk_score)
  | .WARNING => decide (activity.type = .OUTDOOR ∧ mkRat 8 10 < activity.risk_score)
  | .INFO => false

/-- `SimulatorAgent._find_best_alternative` (simulator.py lines 483-509):
filter the alternatives to INDOOR entries and take the first, or `None` if
there is none.  Neither `target_activity` nor `current_weather` influences
the choice in the source (the scoring system is a TODO there). -/
def find_best_alternative (target_activity : ActivityItem)
    (alternatives : List ActivityItem) (current_weather : WeatherCode) :
    Option ActivityItem :=
  (alternatives.filter (fun alt => decide (alt.type = ActivityType.INDOOR))).head?

/-- Python's `lst.index(x)` followed by `lst[index] = repl`
(simulator.py lines 431-432): replace the first occurrence of `target`
(value equality).  Python raises `ValueError` when `target` is absent;
every call in `emergency_replan` passes a `target` drawn from the list, so
the absent case (modelled as the identity) is unreachable there. -/
def replaceFirst {α : Type} [DecidableEq α] : List α → α → α → List α
  | [], _, _ => []
  | x :: xs, target, repl =>
    if x = target then repl :: xs else x :: replaceFirst xs target repl

/-- The audit line appended to `reasoning_path` (simulator.py line 449),
carrying the alert's change type and the number of selected activities. -/
def replan_note (now : Nat) (change_type : String) (count : Nat) : String :=
  "\n[AUTO-UPDATE " ++ Nat.repr now ++ "]: Reacted to " ++ change_type ++
    " alert. Swapped " ++ Nat.repr count ++ " outdoor activities."

/-- `SimulatorAgent.emergency_replan` (simulator.py lines 357-451).
INFO alerts return the input unchanged; otherwise the affected activities
are selected, each is swapped in the itinerary for the first INDOOR
alternative when one exists, and — when at least one activity was affected
— the plan's `updated_at`, `status` and (if currently non-empty) its
`reasoning_path` are updated.  `now` stands for `datetime.utcnow()`. -/
def emergency_replan (original_plan : TripPlan) (alert : AlertSignal) (now : Nat) : TripPlan :=
  if alert.severity = .INFO then original_plan
  else
    let affected_activities := original_plan.main_itinerary.filter (is_affected alert.severity)
    if affected_activities.isEmpty then original_plan
    else
      let updated_itinerary := affected_activities.foldl
        (fun itinerary affected =>
          match find_best_alternative affected original_plan.alternatives
              alert.payload.weather_code with
          | some best_alternative => replaceFirst itinerary affected best_alternative
          | none => itinerary)
        original_plan.main_itinerary
      { original_plan with
        main_itinerary := updated_itinerary
        updated_at := now
        status := .ACTIVE
        reasoning_path :=
          match original_plan.reasoning_path with
          | none => none
          | some path =>
            if path = "" then some path
            else some (path ++ replan_note now alert.change_type affected_activities.length) }

/-! ## Validator agent (`app/agents/validator.py`) -/

/-- Structured stand-ins for the validator's f-string messages, carrying
the interpolated values.  The source builds plain strings; the claims only
inspect which message is emitted and with which data, so the presentational
formatting is abstracted away here. -/
inductive ValidatorMsg
  | budgetExceeded (total_with_buffer limit overage : ℚ)
  | budgetHigh (total_with_buffer limit : ℚ)
  | tooPacked (count : Nat)
  | timeOverlap (current_name current_end next_name next_start : String)
  | tightSchedule (gap : Int) (current_name next_name : String)
  | noFoodActivities (restrictions : List String)
  | dietaryRisk (activity_name restriction : String)
deriving DecidableEq, Repr

/-- The `{"valid", "violations", "warnings"}` dictionary returned by the
private check methods. -/
structure CheckResult where
  valid : Bool
  violations : List ValidatorMsg
  warnings : List ValidatorMsg
deriving DecidableEq, Repr

/-- Python dict assignment `d[k] = v` on an association list: replace the
value at an existing key, else append the pair. -/
def dictSet {α : Type} : List (String × α) → String → α → List (String × α)
  | [], k, v => [(k, v)]
  | (k', v') :: rest, k, v =>
    if k' = k then (k, v) :: rest else (k', v') :: dictSet rest k v

/-- Python `d.get(k)` on an association list. -/
def dictGet {α : Type} : List (String × α) → String → Option α
  | [], _ => none
  | (k', v) :: rest, k => if k' = k then some v else dictGet rest k

/-- The per-category accumulation of `_check_budget` (validator.py lines
275-282): `breakdown[category] += amount`, defaulting a missing key to
`0.0`. -/
def addToBreakdown (breakdown : List (String × ℚ)) (category : String) (amount : ℚ) :
    List (String × ℚ) :=
  match dictGet breakdown category with
  | some v => dictSet breakdown category (v + amount)
  | none => dictSet breakdown category amount

/-- Result of `_check_budget`, including its diagnostics breakdown. -/
structure BudgetCheck where
  valid : Bool
  violations : List ValidatorMsg
  warnings : List ValidatorMsg
  breakdown : List (String × ℚ)
deriving DecidableEq, Repr

/-- `ValidatorAgent._check_budget` (validator.py lines 247-314), with
`BUDGET_BUFFER_PERCENT = 0.10`: sum the activity costs while accumulating
the per-category breakdown, add the 10% buffer, emit a violation carrying
the exact overage when the buffered total exceeds `profile.budget_limit`,
and otherwise a warning when it exceeds 95% of the limit. -/
def check_budget (plan : TripPlan) (profile : UserProfile) : BudgetCheck :=
  let acc := plan.main_itinerary.foldl
    (fun (acc : List (String × ℚ) × ℚ) activity =>
      (addToBreakdown acc.1 activity.budget.category activity.budget.amount,
        acc.2 + activity.budget.amount))
    ([], 0)
  let total := acc.2
  let buffer := total * mkRat 1 10
  let total_with_buffer := total + buffer
  let breakdown :=
    dictSet (dictSet (dictSet (dictSet acc.1 "subtotal" total) "buffer_10%" buffer)
      "total_with_buffer" total_with_buffer) "user_limit" profile.budget_limit
  let violations :=
    if total_with_buffer > profile.budget_limit then
      [ValidatorMsg.budgetExceeded total_with_buffer profile.budget_limit
        (total_with_buffer - profile.budget_limit)]
    else []
  let warnings :=
    if total_with_buffer > profile.budget_limit then []
    else if total_with_buffer > profile.budget_limit * mkRat 95 100 then
      [ValidatorMsg.budgetHigh total_with_buffer profile.budget_limit]
    else []
  { valid := violations.isEmpty
    violations := violations
    warnings := warnings
    breakdown := breakdown }

/-- Sum of all activity costs of a plan (spec §4.4 "sum all activity
costs"), used to state what `check_budget`'s fold computes. -/
def budget_total (plan : TripPlan) : ℚ :=
  (plan.main_itinerary.map (fun a => a.budget.amount)).sum

/-- The buffered total `total + total * 0.10` that `_check_budget`
compares against the limit. -/
def total_with_buffer (plan : TripPlan) : ℚ :=
  budget_total plan + budget_total plan * mkRat 1 10

/-- The food-activity test of `_check_dietary_restrictions`
(validator.py lines 436-442): budget category `"food"`, or
`"restaurant"`, `"cafe"` or `"food"` occurring in the lowercased name. -/
def is_food_activity (act : ActivityItem) : Bool :=
  act.budget.category == "food" ||
  pyContains (pyLower act.name) "restaurant" ||
  pyContains (pyLower act.name) "cafe" ||
  pyContains (pyLower act.name) "food"

/-- Python's `str(dict)` rendering of the modelled string-valued
constraint map, e.g. `{'k': 'v'}` (used at validator.py line 457). -/
def pyStrOfDict (d : List (String × String)) : String :=
  "\x7b" ++ String.intercalate ", "
    (d.map (fun kv => "\x27" ++ kv.1 ++ "\x27: \x27" ++ kv.2 ++ "\x27")) ++ "\x7d"

/-- The combined lowercased search text of one food activity
(validator.py lines 452-458): lowercased name and description, plus the
stringified constraint map when it is truthy (non-`None`, non-empty). -/
def activity_text (act : ActivityItem) : String :=
  pyLower (act.name ++ " " ++ act.description.getD "") ++
    (match act.constraints with
     | some c => if c.isEmpty then "" else " " ++ pyLower (pyStrOfDict c)
     | none => "")

/-- `ValidatorAgent._check_dietary_restrictions` (validator.py lines
412-473).  Note the guard at line 444: when there are no food activities,
the warning fires only if some restriction is literally one of
`["halal", "kosher", "vegan"]`; otherwise each restriction must occur in
each food activity's combined text, else a violation per pair. -/
def check_dietary_restrictions (plan : TripPlan) (restrictions : List String) : CheckResult :=
  let food_activities := plan.main_itinerary.filter is_food_activity
  if food_activities.isEmpty &&
      restrictions.any (fun r => ["halal", "kosher", "vegan"].contains r) then
    { valid := true, violations := [], warnings := [.noFoodActivities restrictions] }
  else
    let violations := food_activities.foldl
      (fun acc act =>
        acc ++ restrictions.filterMap (fun restriction =>
          if pyContains (activity_text act) (pyLower restriction) then none
          else some (.dietaryRisk act.name restriction)))
      []
    { valid := violations.isEmpty, violations := violations, warnings := [] }

/-- The wrapper-keyword exclusion list of `_check_time_conflicts`
(validator.py line 335). -/
def WRAPPER_KEYWORDS : List String := ["transportation", "travel budget", "general", "overall"]

/-- The activities counted against `MAX_DAILY_ACTIVITIES = 8`
(validator.py lines 337-340): those whose lowercased name contains no
wrapper keyword. -/
def activities_to_check (plan : TripPlan) : List ActivityItem :=
  plan.main_itinerary.filter
    (fun act => ! WRAPPER_KEYWORDS.any (fun keyword => pyContains (pyLower act.name) keyword))

/-- The schedule-density warning (validator.py lines 342-346). -/
def packed_warnings (plan : TripPlan) : List ValidatorMsg :=
  if (activities_to_check plan).length > 8 then
    [.tooPacked (activities_to_check plan).length]
  else []

/-- One `{"index", "name", "start", "end"}` record of
`activities_with_times` (validator.py lines 364-369); `stop` models the
`"end"` key. -/
structure TimedEntry where
  index : Nat
  name : String
  start : String
  stop : String
deriving DecidableEq, Repr

/-- The per-activity parse of the slot string (validator.py lines
352-369): the `" - "` separator must split the slot into exactly two
parts, each containing a `":"`; the kept strings are the last
whitespace-word of the start part and the first whitespace-word of the end
part.  All other shapes are skipped silently — the `except` clause at
lines 371-374 is unreachable, because a part containing `":"` contains a
non-whitespace character, so its whitespace split is non-empty. -/
def slot_parsed (time_slot : String) : Option (String × String) :=
  let parts := pySplitOn time_slot " - "
  if parts.length = 2 then
    let start_str := parts.getD 0 ""
    let end_str := parts.getD 1 ""
    if pyContains start_str ":" && pyContains end_str ":" then
      some ((pySplitWs start_str).getLastD "", (pySplitWs end_str).headD "")
    else none
  else none

/-- `activities_with_times` (validator.py lines 350-369): the parseable
activities, in itinerary order, with their index and name. -/
def activities_with_times (plan : TripPlan) : List TimedEntry :=
  plan.main_itinerary.enum.filterMap
    (fun ia =>
      (slot_parsed ia.2.time_slot).map
        (fun se => { index := ia.1, name := ia.2.name, start := se.1, stop := se.2 }))

/-- The `HH:MM` parse of the transition loop (validator.py lines
383-384): `map(int, s.split(":"))` unpacked into exactly two integers; any
failure is caught and the pair skipped. -/
def parse_clock (s : String) : Option (Int × Int) :=
  match (pySplitOn s ":").map pyInt? with
  | [some h, some m] => some (h, m)
  | _ => none

/-- The transition checks over consecutive parsed entries
(validator.py lines 377-404): a negative gap between one entry's end and
the next entry's start is a violation, a gap below
`MIN_TRANSITION_TIME = 15` minutes a warning; clock values that fail to
parse are skipped (logged only). -/
def transition_msgs : List TimedEntry → List ValidatorMsg × List ValidatorMsg
  | [] => ([], [])
  | [_] => ([], [])
  | current :: next_act :: rest =>
    let tail := transition_msgs (next_act :: rest)
    match parse_clock current.stop, parse_clock next_act.start with
    | some hm1, some hm2 =>
      let gap := (hm2.1 * 60 + hm2.2) - (hm1.1 * 60 + hm1.2)
      if gap < 0 then
        (.timeOverlap current.name current.stop next_act.name next_act.start :: tail.1, tail.2)
      else if gap < 15 then
        (tail.1, .tightSchedule gap current.name next_act.name :: tail.2)
      else tail
    | _, _ => tail

/-- `ValidatorAgent._check_time_conflicts` (validator.py lines 316-410):
the density warning, then the violations and warnings of the transition
loop over the parseable activities. -/
def check_time_conflicts (plan : TripPlan) : CheckResult :=
  let awt := activities_with_times plan
  let msgs := transition_msgs awt
  { valid := msgs.1.isEmpty
    violations := msgs.1
    warnings := packed_warnings plan ++ msgs.2 }

/-! ## Scout `get_realtime_state` (scout.py lines 104-166) -/

/-- The "last resort" default snapshot of the `except` branch
(scout.py lines 158-166): CLEAR weather, 20.0 °C, precipitation
probability 0.0, traffic index 5.0, POI-open unknown. -/
def default_safe_state (location : String) (now : Nat) : EnvironmentState :=
  { location_id := location
    timestamp := now
    weather_code := .CLEAR
    temperature := 20
    precipitation_probability := some 0
    traffic_index := 5
    is_poi_open := none }

/-- `ScoutAgent.get_realtime_state` (scout.py lines 104-166), returning
the snapshot together with the updated `_state_cache`.  The mock override
checked at step 1 is the `mock` argument (returned with its
`location_id` overwritten, cache untouched).  The production fetch inside
the `try` block is a TODO placeholder in the source (lines 129-142), so
its outcome is abstracted as the `Except`-valued `fetch` argument: on
success the snapshot is cached and returned; on an exception the cached
snapshot for the location is returned when present, else the default safe
state — no error ever reaches the caller (the return type carries no
error case). -/
def get_realtime_state (cache : List (String × EnvironmentState))
    (mock : Option EnvironmentState) (fetch : Except String EnvironmentState)
    (location : String) (now : Nat) :
    EnvironmentState × List (String × EnvironmentState) :=
  match mock with
  | some mock_state => ({ mock_state with location_id := location }, cache)
  | none =>
    match fetch with
    | .ok current_state => (current_state, dictSet cache location current_state)
    | .error _ =>
      match dictGet cache location with
      | some cached => (cached, cache)
      | none => (default_safe_state location now, cache)

/-! ## Orchestrator (`app/services/orchestrator.py`) -/

/-- The two `ValueError` raise sites of `confirm_and_activate_plan`
(orchestrator.py lines 139 and 142), distinguished by their message
content: `"Plan {plan_id} not found"`, and `"Plan must be VERIFIED to
activate (current: {status})"`, which reports the current state against
the required one (VERIFIED). -/
inductive ConfirmError
  | notFound (plan_id : String)
  | invalidState (current required : PlanStatus)
deriving DecidableEq, Repr

/-- The success dictionary returned at orchestrator.py lines 160-164. -/
structure ConfirmResponse where
  status : String
  monitoring_started : Bool
  plan_id : String
deriving DecidableEq, Repr

/-- The orchestrator's state: `_plan_storage` and `_active_monitors`
(orchestrator.py lines 43-44); an `asyncio.Task` handle is abstracted as
a numeric task id. -/
structure OrchestratorState where
  plan_storage : List (String × TripPlan)
  active_monitors : List (String × Nat)
deriving DecidableEq, Repr

/-- `Orchestrator.confirm_and_activate_plan` (orchestrator.py lines
123-164).  `now` models `datetime.utcnow()`, `task` the
`asyncio.create_task(scout.monitor_routine(...))` handle.  A missing plan
raises the not-found error; a plan whose status is not VERIFIED raises the
invalid-state error; otherwise the plan transitions to ACTIVE (the stored
object is the mutated one), the watchdog handle is recorded under the plan
id, and the activation acknowledgement is returned. -/
def confirm_and_activate_plan (st : OrchestratorState) (plan_id : String)
    (now : Nat) (task : Nat) :
    Except ConfirmError (OrchestratorState × ConfirmResponse) :=
  match dictGet st.plan_storage plan_id with
  | none => .error (.notFound plan_id)
  | some plan =>
    if plan.status ≠ PlanStatus.VERIFIED then
      .error (.invalidState plan.status PlanStatus.VERIFIED)
    else
      .ok
        ({ plan_storage := dictSet st.plan_storage plan_id
             { plan with status := PlanStatus.ACTIVE, updated_at := now }
           active_monitors := dictSet st.active_monitors plan_id task },
         { status := "active", monitoring_started := true, plan_id := plan_id })

/-! ## Concrete plans and alerts used by the Simulator witnesses -/

/-- A San Francisco location shared by the concrete activities. -/
def locSF : GeoLocation := { lat := mkRat 3777 100, lng := mkRat (-12242) 100, address := "SF" }

/-- OUTDOOR activity with risk score 0.9. -/
def actOutdoorHigh : ActivityItem :=
  { activity_id := "a1"
    name := "Bay Kayaking"
    time_slot := "10:00 - 12:00"
    location := locSF
    budget := { amount := 50, currency := "USD", category := "entertainment" }
    type := .OUTDOOR
    description := none
    constraints := none
    risk_score := mkRat 9 10
    status := "pending" }

/-- OUTDOOR activity with risk score 0.5. -/
def actOutdoorLow : ActivityItem :=
  { actOutdoorHigh with activity_id := "a2", name := "Golden Gate Walk", risk_score := mkRat 5 10 }

/-- INDOOR backup activity. -/
def actIndoorAlt : ActivityItem :=
  { activity_id := "a3"
    name := "SFMOMA Visit"
    time_slot := "10:00 - 12:00"
    location := locSF
    budget := { amount := 30, currency := "USD", category := "entertainment" }
    type := .INDOOR
    description := none
    constraints := none
    risk_score := mkRat 1 10
    status := "pending" }

/-- The spec §8 scenario plan: two OUTDOOR activities (risk 0.9 and 0.5)
and one INDOOR alternative, with a non-empty reasoning trail. -/
def planScenario : TripPlan :=
  { plan_id := "plan-1"
    name := "SF Day"
    status := .ACTIVE
    main_itinerary := [actOutdoorHigh, actOutdoorLow]
    alternatives := [actIndoorAlt]
    reasoning_path := some "initial reasoning"
    created_at := 0
    updated_at := 0 }

/-- The same plan with an empty (`None`) reasoning trail. -/
def planNoTrail : TripPlan := { planScenario with reasoning_path := none }

/-- A CRITICAL weather alert whose payload carries the storm snapshot. -/
def alertCriticalStorm : AlertSignal :=
  { source := "SCOUT_AGENT"
    change_type := "weather"
    message := "Weather changed from clear to storm"
    trigger_value := "storm"
    severity := .CRITICAL
    affected_plan_id := "plan-1"
    payload := { location_id := "loc", timestamp := 1, weather_code := .STORM,
                 temperature := 18, precipitation_probability := none,
                 traffic_index := 5, is_poi_open := none }
    timestamp := 2 }

/-- An INFO alert on the same payload. -/
def alertInfoClear : AlertSignal :=
  { alertCriticalStorm with severity := .INFO, trigger_value := "clear" }

/-! ## Concrete snapshots used by the Scout witnesses -/

/-- A baseline snapshot: clear weather, 20 °C, traffic index 0. -/
def envBase : EnvironmentState :=
  { location_id := "loc_37.77_-122.42"
    timestamp := 0
    weather_code := .CLEAR
    temperature := 20
    precipitation_probability := none
    traffic_index := 0
    is_poi_open := none }

/-- `envBase` after a CLEAR → STORM transition. -/
def envStorm : EnvironmentState := { envBase with weather_code := .STORM, timestamp := 1 }

/-- `envBase` with traffic index 3.01. -/
def envT301 : EnvironmentState := { envBase with traffic_index := mkRat 301 100, timestamp := 1 }

/-- `envBase` with traffic index 5.01. -/
def envT501 : EnvironmentState := { envBase with traffic_index := mkRat 501 100, timestamp := 1 }

/-- `envBase` with traffic index exactly 3.0. -/
def envT300 : EnvironmentState := { envBase with traffic_index := 3, timestamp := 1 }

/-! ## Concrete plans and profiles used by the Validator witnesses -/

/-- Activity costing $40 (category `"food"`). -/
def actDinner : ActivityItem :=
  { activity_id := "b1"
    name := "Vegan Dinner"
    time_slot := "18:00 - 19:30"
    location := locSF
    budget := { amount := 40, currency := "USD", category := "food" }
    type := .INDOOR
    description := none
    constraints := none
    risk_score := mkRat 1 10
    status := "pending" }

/-- Activity costing $50 (category `"entertainment"`). -/
def actShow : ActivityItem :=
  { actDinner with
    activity_id := "b2"
    name := "Evening Show"
    time_slot := "20:00 - 22:00"
    budget := { amount := 50, currency := "USD", category := "entertainment" } }

/-- The spec §8 budget scenario: an itinerary totalling $90. -/
def plan90 : TripPlan :=
  { plan_id := "plan-90"
    name := "Ninety Dollars"
    status := .DRAFT
    main_itinerary := [actDinner, actShow]
    alternatives := []
    reasoning_path := none
    created_at := 0
    updated_at := 0 }

/-- A profile with a $100 budget limit. -/
def profile100 : UserProfile :=
  { user_id := "u1"
    budget_limit := 100
    preferences := []
    sensitive_to_rain := false
    dietary_restrictions := none
    mobility_constraints := none }

/-- An activity that is not food-related (name contains none of
`restaurant`/`cafe`/`food`, category is not `"food"`). -/
def actHike : ActivityItem :=
  { actDinner with
    activity_id := "b3"
    name := "Hilltop Hike"
    time_slot := "09:00 - 11:00"
    budget := { amount := 0, currency := "USD", category := "entertainment" }
    type := .OUTDOOR
    risk_score := mkRat 7 10 }

/-- A plan containing no food-related activity. -/
def planNoFood : TripPlan :=
  { plan90 with plan_id := "plan-nofood", name := "No Food", main_itinerary := [actHike] }

/-- An activity whose time slot has no `" - "` separator. -/
def actSlotNoSep : ActivityItem :=
  { actHike with activity_id := "b4", name := "Morning Swim", time_slot := "noon" }

/-- An activity whose time slot has the separator but no `":"` times. -/
def actSlotNoColon : ActivityItem :=
  { actHike with activity_id := "b5", name := "Harbor Stroll", time_slot := "10am - 11am" }

/-- A plan whose every time slot is malformed. -/
def planBadSlots : TripPlan :=
  { plan90 with
    plan_id := "plan-badslots"
    name := "Bad Slots"
    main_itinerary := [actSlotNoSep, actSlotNoColon] }

/-! ## Concrete states used by the Orchestrator and realtime witnesses -/

/-- A stored plan in the VERIFIED state. -/
def planVerified : TripPlan :=
  { planScenario with plan_id := "plan-v", status := .VERIFIED }

/-- A stored plan still in the DRAFT state. -/
def planDraft : TripPlan :=
  { planScenario with plan_id := "plan-d", status := .DRAFT }

/-- Orchestrator storage holding the two plans, with no active monitors. -/
def orchState : OrchestratorState :=
  { plan_storage := [("plan-v", planVerified), ("plan-d", planDraft)]
    active_monitors := [] }

/-- A state cache holding a snapshot for location `"loc"`. -/
def cacheLoc : List (String × EnvironmentState) := [("loc", envBase)]

/-! ## Theorems -/

/-- Helper: the code's weather-severity helper agrees with the spec's
transition table on every pair of weather codes (checked exhaustively). -/
theorem assess_eq_spec_table (o n : WeatherCode) :
    assess_weather_severity o n = spec_weather_severity_table o n := by
  revert o n; decide

/-- C2: `compare_states` is a deterministic function of the two snapshots
(the `now` argument only stamps the emitted signal's timestamp field), it
checks weather first, then traffic, then temperature with first match wins
— returning an `Option` it emits at most one signal per comparison — and
identical weather/traffic/temperature snapshots produce no signal. -/
theorem c2_compare_states_priority_and_noise (last current : EnvironmentState) (now : Nat) :
    (last.weather_code = current.weather_code ∧
        last.traffic_index = current.traffic_index ∧
        last.temperature = current.temperature →
      compare_states last current now = none) ∧
    (last.weather_code ≠ current.weather_code →
      (compare_states last current now).map (fun s => s.change_type) = some "weather") ∧
    (last.weather_code = current.weather_code →
        3 < |current.traffic_index - last.traffic_index| →
      (compare_states last current now).map (fun s => s.change_type) = some "traffic") := by
  refine ⟨?_, ?_, ?_⟩
  · rintro ⟨hw, ht, htemp⟩
    simp [compare_states, hw, ht, htemp]
    norm_num
  · intro hw
    simp [compare_states, hw]
  · intro hw hd
    simp [compare_states, hw, hd, not_lt.mpr]

/-- C2 witness: a pair of equal snapshots produces no signal, and the
CLEAR → STORM pair produces a weather signal. -/
theorem c2_compare_states_priority_and_noise_witness :
    compare_states envBase envBase 3 = none ∧
    (compare_states envBase envStorm 3).map (fun s => s.change_type) = some "weather" := by
  constructor
  · exact (c2_compare_states_priority_and_noise envBase envBase 3).1 ⟨rfl, rfl, rfl⟩
  · exact (c2_compare_states_priority_and_noise envBase envStorm 3).2.1 (by decide)

/-- C3: whenever the weather codes differ, `compare_states` emits a weather
alert whose severity follows the spec's transition table
(`spec_weather_severity_table`); in particular CLEAR → STORM is CRITICAL. -/
theorem c3_weather_severity_follows_table (last current : EnvironmentState) (now : Nat)
    (hw : last.weather_code ≠ current.weather_code) :
    (compare_states last current now).map (fun s => (s.change_type, s.severity)) =
      some ("weather", spec_weather_severity_table last.weather_code current.weather_code) ∧
    spec_weather_severity_table .CLEAR .STORM = .CRITICAL := by
  constructor
  · simp [compare_states, hw, assess_eq_spec_table]
  · decide

/-- C3 witness: the CLEAR → STORM transition yields a CRITICAL weather
alert. -/
theorem c3_weather_severity_follows_table_witness :
    (compare_states envBase envStorm 2).map (fun s => (s.change_type, s.severity)) =
      some ("weather", AlertSeverity.CRITICAL) := by
  have h := (c3_weather_severity_follows_table envBase envStorm 2 (by decide)).1
  simpa [envBase, envStorm, spec_weather_severity_table, critical_conditions] using h

/-- C4: with equal weather codes, `compare_states` produces a traffic alert
iff the absolute traffic delta strictly exceeds 3.0 — WARNING when the
delta is below 5.0, CRITICAL otherwise — and a delta of at most 3.0 never
produces a traffic alert. -/
theorem c4_traffic_spike_threshold (last current : EnvironmentState) (now : Nat)
    (hw : last.weather_code = current.weather_code) :
    (3 < |current.traffic_index - last.traffic_index| →
        |current.traffic_index - last.traffic_index| < 5 →
      (compare_states last current now).map (fun s => (s.change_type, s.severity)) =
        some ("traffic", AlertSeverity.WARNING)) ∧
    (5 ≤ |current.traffic_index - last.traffic_index| →
      (compare_states last current now).map (fun s => (s.change_type, s.severity)) =
        some ("traffic", AlertSeverity.CRITICAL)) ∧
    (|current.traffic_index - last.traffic_index| ≤ 3 →
      (compare_states last current now).map (fun s => s.change_type) ≠ some "traffic") := by
  refine ⟨?_, ?_, ?_⟩
  · intro h3 h5
    simp [compare_states, hw, h3, h5]
  · intro h5
    have h3 : 3 < |current.traffic_index - last.traffic_index| := by linarith
    simp [compare_states, hw, h3, not_lt.mpr h5]
  · intro h3
    by_cases h10 : 10 < |current.temperature - last.temperature|
    · simp [compare_states, hw, not_lt.mpr h3, h10]
    · simp [compare_states, hw, not_lt.mpr h3, h10]

/-- C4 witness: with equal weather, a traffic delta of 3.01 yields WARNING,
5.01 yields CRITICAL, and exactly 3.0 yields no traffic alert. -/
theorem c4_traffic_spike_threshold_witness :
    (compare_states envBase envT301 1).map (fun s => (s.change_type, s.severity)) =
      some ("traffic", AlertSeverity.WARNING) ∧
    (compare_states envBase envT501 1).map (fun s => (s.change_type, s.severity)) =
      some ("traffic", AlertSeverity.CRITICAL) ∧
    (compare_states envBase envT300 1).map (fun s => s.change_type) ≠ some "traffic" := by
  have d301 : |envT301.traffic_index - envBase.traffic_index| = mkRat 301 100 := by
    simp only [envT301, envBase]
    rw [sub_zero]
    exact abs_of_nonneg (by norm_num)
  have d501 : |envT501.traffic_index - envBase.traffic_index| = mkRat 501 100 := by
    simp only [envT501, envBase]
    rw [sub_zero]
    exact abs_of_nonneg (by norm_num)
  have d300 : |envT300.traffic_index - envBase.traffic_index| = 3 := by
    simp only [envT300, envBase]
    rw [sub_zero]
    exact abs_of_nonneg (by norm_num)
  refine ⟨?_, ?_, ?_⟩
  · exact (c4_traffic_spike_threshold envBase envT301 1 rfl).1
      (by rw [d301]; norm_num) (by rw [d301]; norm_num)
  · exact (c4_traffic_spike_threshold envBase envT501 1 rfl).2.1 (by rw [d501]; norm_num)
  · exact (c4_traffic_spike_threshold envBase envT300 1 rfl).2.2 (by rw [d300])

/-- Helper: an element returned by `head?` of a `filter` satisfies the
filter predicate. -/
theorem head?_filter_pred {α : Type} (f : α → Bool) (l : List α) (b : α)
    (h : (l.filter f).head? = some b) : f b = true := by
  cases hf : l.filter f with
  | nil => rw [hf] at h; simp at h
  | cons x xs =>
    rw [hf] at h
    have hx : x = b := by simpa using h
    subst hx
    have hmem : x ∈ l.filter f := by rw [hf]; exact List.mem_cons_self x xs
    exact (List.mem_filter.mp hmem).2

/-- Helper: replacing the first occurrence of `a` in `pre ++ a :: rest`
when `a` does not occur in `pre`. -/
theorem replaceFirst_append {α : Type} [DecidableEq α] (pre rest : List α) (a repl : α)
    (h : a ∉ pre) : replaceFirst (pre ++ a :: rest) a repl = pre ++ repl :: rest := by
  induction pre with
  | nil => simp [replaceFirst]
  | cons x xs ih =>
    have hxa : ¬ (x = a) := fun he => h (by rw [← he]; exact List.mem_cons_self x xs)
    simp only [List.cons_append, replaceFirst, if_neg hxa, List.append_eq]
    rw [ih (fun hm => h (List.mem_cons_of_mem x hm))]

/-- Helper: the replanner's fold — replace, for each element of
`rest.filter p` in order, its first occurrence by `repl` — acts on
`pre ++ rest` as the pointwise map that rewrites exactly the `p`-elements
of `rest`, provided `repl` itself does not satisfy `p` and no element of
the already-processed prefix `pre` does. -/
theorem foldl_replaceFirst_eq_map {α : Type} [DecidableEq α] (p : α → Bool) (repl : α)
    (hrepl : p repl = false) :
    ∀ (rest pre : List α), (∀ x ∈ pre, p x = false) →
      (rest.filter p).foldl (fun itin aff => replaceFirst itin aff repl) (pre ++ rest)
        = pre ++ rest.map (fun a => if p a then repl else a) := by
  intro rest
  induction rest with
  | nil => intro pre hpre; simp
  | cons a rest ih =>
    intro pre hpre
    cases hpa : p a with
    | false =>
      rw [List.filter_cons, if_neg (by simp [hpa])]
      rw [show pre ++ a :: rest = (pre ++ [a]) ++ rest by simp]
      rw [ih (pre ++ [a]) (by
        intro x hx
        rcases List.mem_append.mp hx with h1 | h1
        · exact hpre x h1
        · rw [List.mem_singleton.mp h1]; exact hpa)]
      simp [hpa]
    | true =>
      rw [List.filter_cons, if_pos (by simp [hpa]), List.foldl_cons]
      have hnot : a ∉ pre := fun hmem => by
        have hfa := hpre a hmem
        rw [hpa] at hfa
        cases hfa
      rw [replaceFirst_append pre rest a repl hnot]
      rw [show pre ++ repl :: rest = (pre ++ [repl]) ++ rest by simp]
      rw [ih (pre ++ [repl]) (by
        intro x hx
        rcases List.mem_append.mp hx with h1 | h1
        · exact hpre x h1
        · rw [List.mem_singleton.mp h1]; exact hrepl)]
      simp [hpa]

/-- C1 (amended): for a CRITICAL alert, when the plan has an INDOOR
alternative (first one `best`), a non-empty reasoning trail, and at least
one affected activity, `emergency_replan` swaps exactly the OUTDOOR
activities with `risk_score > 0.6` (each for `best`), leaves the
alternatives untouched, preserves `plan_id`, and appends exactly one
reasoning-trail note carrying the alert's change type and the number of
swapped activities. -/
theorem c1_emergency_replan_critical (plan : TripPlan) (alert : AlertSignal) (now : Nat)
    (best : ActivityItem)
    (hsev : alert.severity = .CRITICAL)
    (hbest : (plan.alternatives.filter
      (fun alt => decide (alt.type = ActivityType.INDOOR))).head? = some best)
    (hpath : plan.reasoning_path.getD "" ≠ "")
    (haff : plan.main_itinerary.filter (is_affected .CRITICAL) ≠ []) :
    (emergency_replan plan alert now).plan_id = plan.plan_id ∧
    (emergency_replan plan alert now).alternatives = plan.alternatives ∧
    (emergency_replan plan alert now).main_itinerary =
      plan.main_itinerary.map (fun a => if is_affected .CRITICAL a then best else a) ∧
    (emergency_replan plan alert now).reasoning_path =
      some (plan.reasoning_path.getD "" ++ replan_note now alert.change_type
        (plan.main_itinerary.filter (is_affected .CRITICAL)).length) := by
  have htype : best.type = ActivityType.INDOOR :=
    of_decide_eq_true (head?_filter_pred
      (fun alt => decide (alt.type = ActivityType.INDOOR)) plan.alternatives best hbest)
  have hrepl : is_affected .CRITICAL best = false := by
    simp [is_affected, htype]
  have hempty : (plan.main_itinerary.filter (is_affected .CRITICAL)).isEmpty = false := by
    rw [List.isEmpty_eq_false_iff_exists_mem]
    exact List.exists_mem_of_ne_nil _ haff
  obtain ⟨path, hp⟩ : ∃ s, plan.reasoning_path = some s := by
    cases hpp : plan.reasoning_path with
    | none => rw [hpp] at hpath; simp at hpath
    | some s => exact ⟨s, rfl⟩
  have hpne : ¬ (path = "") := by rw [hp] at hpath; simpa using hpath
  have hmain := foldl_replaceFirst_eq_map (is_affected .CRITICAL) best hrepl
    plan.main_itinerary [] (by intro x hx; simp at hx)
  simp only [List.nil_append] at hmain
  simp only [emergency_replan, hsev, hp, find_best_alternative, hbest]
  rw [if_neg (show ¬ (AlertSeverity.CRITICAL = AlertSeverity.INFO) from by decide)]
  rw [hempty]
  simp only [Bool.false_eq_true, if_false, if_neg hpne]
  exact ⟨by trivial, by trivial, hmain, by trivial⟩

/-- C1 counterexample to the claim as stated: a plan with an INDOOR
alternative and an affected OUTDOOR activity but an empty (None) reasoning
trail, under a CRITICAL alert — the swap happens, yet no reasoning-trail
entry is appended, refuting "appends exactly one entry to the reasoning
trail". -/
theorem c1_emergency_replan_critical_cx :
    alertCriticalStorm.severity = AlertSeverity.CRITICAL ∧
    (planNoTrail.alternatives.filter
      (fun alt => decide (alt.type = ActivityType.INDOOR))).head? = some actIndoorAlt ∧
    (emergency_replan planNoTrail alertCriticalStorm 9).main_itinerary =
      [actIndoorAlt, actOutdoorLow] ∧
    (emergency_replan planNoTrail alertCriticalStorm 9).reasoning_path = none := by
  refine ⟨rfl, by decide, by decide, by decide⟩

/-- C1 witness: the spec §8 scenario — two OUTDOOR activities (risk 0.9
and 0.5), one INDOOR alternative, non-empty trail, CRITICAL alert — swaps
exactly the risk-0.9 activity, keeps the risk-0.5 activity, preserves
identity and alternatives, and appends one audit note. -/
theorem c1_emergency_replan_critical_witness :
    alertCriticalStorm.severity = AlertSeverity.CRITICAL ∧
    (planScenario.alternatives.filter
      (fun alt => decide (alt.type = ActivityType.INDOOR))).head? = some actIndoorAlt ∧
    planScenario.reasoning_path.getD "" ≠ "" ∧
    planScenario.main_itinerary.filter (is_affected .CRITICAL) ≠ [] ∧
    (emergency_replan planScenario alertCriticalStorm 9).plan_id = planScenario.plan_id ∧
    (emergency_replan planScenario alertCriticalStorm 9).alternatives = planScenario.alternatives ∧
    (emergency_replan planScenario alertCriticalStorm 9).main_itinerary =
      [actIndoorAlt, actOutdoorLow] ∧
    (emergency_replan planScenario alertCriticalStorm 9).reasoning_path =
      some (planScenario.reasoning_path.getD "" ++ replan_note 9 alertCriticalStorm.change_type
        (planScenario.main_itinerary.filter (is_affected .CRITICAL)).length) := by
  have h := c1_emergency_replan_critical planScenario alertCriticalStorm 9 actIndoorAlt
    rfl (by decide) (by decide) (by decide)
  refine ⟨rfl, by decide, by decide, by decide, h.1, h.2.1, ?_, h.2.2.2⟩
  rw [h.2.2.1]
  decide

/-- C7: for every plan and every INFO-severity alert, `emergency_replan`
returns the input plan itself — no field changes at all. -/
theorem c7_replan_info_identity (plan : TripPlan) (alert : AlertSignal) (now : Nat)
    (h : alert.severity = AlertSeverity.INFO) :
    emergency_replan plan alert now = plan := by
  simp [emergency_replan, h]

/-- C7 witness: the scenario plan is returned unchanged under an INFO
alert. -/
theorem c7_replan_info_identity_witness :
    alertInfoClear.severity = AlertSeverity.INFO ∧
    emergency_replan planScenario alertInfoClear 9 = planScenario :=
  ⟨rfl, c7_replan_info_identity planScenario alertInfoClear 9 rfl⟩

/-- Helper: the running second component of `check_budget`'s fold is the
initial value plus the sum of the activity amounts. -/
theorem budget_fold_total (l : List ActivityItem) :
    ∀ (bd : List (String × ℚ)) (t : ℚ),
      (l.foldl (fun (acc : List (String × ℚ) × ℚ) activity =>
        (addToBreakdown acc.1 activity.budget.category activity.budget.amount,
          acc.2 + activity.budget.amount)) (bd, t)).2
        = t + (l.map (fun a => a.budget.amount)).sum := by
  induction l with
  | nil => intro bd t; simp
  | cons a l ih =>
    intro bd t
    rw [List.foldl_cons, ih, List.map_cons, List.sum_cons]
    ring

/-- C5: `check_budget` sums the activity costs, adds the 10% buffer, and
compares the buffered total to `profile.budget_limit`: strictly over the
limit it emits exactly the violation carrying the exact overage (and no
warning); at most the limit but strictly above 95% of it, it emits exactly
the high-usage warning (and no violation); at most both bounds, it emits
nothing. -/
theorem c5_budget_check (plan : TripPlan) (profile : UserProfile) :
    (profile.budget_limit < total_with_buffer plan →
      (check_budget plan profile).violations =
        [.budgetExceeded (total_with_buffer plan) profile.budget_limit
          (total_with_buffer plan - profile.budget_limit)] ∧
      (check_budget plan profile).warnings = [] ∧
      (check_budget plan profile).valid = false) ∧
    (total_with_buffer plan ≤ profile.budget_limit →
        profile.budget_limit * mkRat 95 100 < total_with_buffer plan →
      (check_budget plan profile).violations = [] ∧
      (check_budget plan profile).warnings =
        [.budgetHigh (total_with_buffer plan) profile.budget_limit] ∧
      (check_budget plan profile).valid = true) ∧
    (total_with_buffer plan ≤ profile.budget_limit →
        total_with_buffer plan ≤ profile.budget_limit * mkRat 95 100 →
      (check_budget plan profile).violations = [] ∧
      (check_budget plan profile).warnings = [] ∧
      (check_budget plan profile).valid = true) := by
  have ht : (plan.main_itinerary.foldl (fun (acc : List (String × ℚ) × ℚ) activity =>
      (addToBreakdown acc.1 activity.budget.category activity.budget.amount,
        acc.2 + activity.budget.amount)) ([], 0)).2 = budget_total plan := by
    rw [budget_fold_total plan.main_itinerary [] 0, zero_add, budget_total]
  refine ⟨?_, ?_, ?_⟩
  · intro h
    rw [total_with_buffer] at h
    simp only [check_budget, ht]
    rw [if_pos h, if_pos h]
    exact ⟨rfl, rfl, rfl⟩
  · intro h1 h2
    rw [total_with_buffer] at h1 h2
    simp only [check_budget, ht]
    rw [if_neg (not_lt.mpr h1), if_neg (not_lt.mpr h1), if_pos h2]
    exact ⟨rfl, rfl, rfl⟩
  · intro h1 h2
    rw [total_with_buffer] at h1 h2
    simp only [check_budget, ht]
    rw [if_neg (not_lt.mpr h1), if_neg (not_lt.mpr h1), if_neg (not_lt.mpr h2)]
    exact ⟨rfl, rfl, rfl⟩

/-- C5 witness: the spec §8 scenario — $90 itinerary, $100 limit, buffered
total $99 — yields no violation but does yield the warning. -/
theorem c5_budget_check_witness :
    total_with_buffer plan90 = 99 ∧
    (check_budget plan90 profile100).violations = [] ∧
    (check_budget plan90 profile100).warnings = [.budgetHigh 99 100] ∧
    (check_budget plan90 profile100).valid = true := by
  have htwb : total_with_buffer plan90 = 99 := by
    rw [total_with_buffer]
    rw [show budget_total plan90 = 90 by norm_num [budget_total, plan90, actDinner, actShow]]
    norm_num
  have h := (c5_budget_check plan90 profile100).2.1
    (by rw [htwb]; norm_num [profile100])
    (by rw [htwb]; norm_num [profile100])
  refine ⟨htwb, h.1, ?_, h.2.2⟩
  rw [h.2.1, htwb]
  rfl

/-- C8 (amended): with no food-related activities in the plan, the dietary
check emits the "no food activities" warning exactly when some restriction
is literally one of `halal`, `kosher`, `vegan`; for any other non-empty
restriction set it passes silently (no violation, no warning). -/
theorem c8_dietary_no_food (plan : TripPlan) (restrictions : List String)
    (hfood : plan.main_itinerary.filter is_food_activity = []) :
    (restrictions.any (fun r => ["halal", "kosher", "vegan"].contains r) = true →
      check_dietary_restrictions plan restrictions =
        { valid := true, violations := [], warnings := [.noFoodActivities restrictions] }) ∧
    (restrictions.any (fun r => ["halal", "kosher", "vegan"].contains r) = false →
      check_dietary_restrictions plan restrictions =
        { valid := true, violations := [], warnings := [] }) := by
  constructor
  · intro hr
    simp only [check_dietary_restrictions, hfood]
    rw [hr]
    simp
  · intro hr
    simp only [check_dietary_restrictions, hfood]
    rw [hr]
    simp

/-- C8 counterexample to the claim as stated: restrictions
`["gluten_free"]` (non-empty) with a plan containing no food activities —
the check passes silently, with no warning, because `gluten_free` is not
in the guard list `["halal", "kosher", "vegan"]` at validator.py line
444. -/
theorem c8_dietary_no_food_cx :
    planNoFood.main_itinerary.filter is_food_activity = [] ∧
    (["gluten_free"] : List String) ≠ [] ∧
    check_dietary_restrictions planNoFood ["gluten_free"] =
      { valid := true, violations := [], warnings := [] } := by
  exact ⟨by decide, by decide, by decide⟩

/-- C8 witness: with no food activities, restrictions `["vegan",
"gluten_free"]` do produce the warning, while `["gluten_free"]` alone
produces none. -/
theorem c8_dietary_no_food_witness :
    check_dietary_restrictions planNoFood ["vegan", "gluten_free"] =
      { valid := true, violations := [],
        warnings := [.noFoodActivities ["vegan", "gluten_free"]] } ∧
    check_dietary_restrictions planNoFood ["gluten_free"] =
      { valid := true, violations := [], warnings := [] } :=
  ⟨(c8_dietary_no_food planNoFood ["vegan", "gluten_free"] (by decide)).1 (by decide),
   (c8_dietary_no_food planNoFood ["gluten_free"] (by decide)).2 (by decide)⟩

/-- Helper: if every activity's slot is unparseable, the enumerated
filter-map of `activities_with_times` is empty. -/
theorem enumFrom_filterMap_nil (l : List ActivityItem)
    (h : ∀ act ∈ l, slot_parsed act.time_slot = none) :
    ∀ n : Nat, (List.enumFrom n l).filterMap
      (fun ia => (slot_parsed ia.2.time_slot).map
        (fun se => ({ index := ia.1, name := ia.2.name, start := se.1, stop := se.2 }
          : TimedEntry))) = [] := by
  induction l with
  | nil => intro n; simp
  | cons a l ih =>
    intro n
    rw [List.enumFrom_cons, List.filterMap_cons]
    simp only [h a (List.mem_cons_self a l), Option.map_none]
    exact ih (fun x hx => h x (List.mem_cons_of_mem a hx)) (n + 1)

/-- C10: the time-conflict check degrades safely on malformed slot
strings: (1) if every slot is unparseable, there are no violations and the
only possible warning is the schedule-density one; (2) a violation can
only exist when at least two activities parsed; (3) a slot that does not
split into exactly two `" - "`-separated parts, or whose parts lack a
`":"`, is excluded from overlap checking. -/
theorem c10_time_conflicts_safe (plan : TripPlan) :
    ((∀ act ∈ plan.main_itinerary, slot_parsed act.time_slot = none) →
      (check_time_conflicts plan).violations = [] ∧
      (check_time_conflicts plan).warnings = packed_warnings plan) ∧
    ((check_time_conflicts plan).violations ≠ [] →
      2 ≤ (activities_with_times plan).length) ∧
    (∀ s : String,
      ((pySplitOn s " - ").length ≠ 2 ∨
        pyContains ((pySplitOn s " - ").getD 0 "") ":" = false ∨
        pyContains ((pySplitOn s " - ").getD 1 "") ":" = false) →
      slot_parsed s = none) := by
  refine ⟨?_, ?_, ?_⟩
  · intro h
    have hawt : activities_with_times plan = [] := by
      rw [activities_with_times, List.enum]
      exact enumFrom_filterMap_nil plan.main_itinerary h 0
    simp [check_time_conflicts, hawt, transition_msgs]
  · intro hv
    cases hawt : activities_with_times plan with
    | nil =>
      exfalso
      apply hv
      simp [check_time_conflicts, hawt, transition_msgs]
    | cons a t =>
      cases t with
      | nil =>
        exfalso
        apply hv
        simp [check_time_conflicts, hawt, transition_msgs]
      | cons b t2 => simp
  · intro s h
    rcases h with h1 | h2 | h3
    · simp [slot_parsed, h1]
    · simp only [slot_parsed]
      rw [h2]
      simp
    · simp only [slot_parsed]
      rw [h3]
      simp

/-- C10 witness: a plan whose two slots are `"noon"` (no separator) and
`"10am - 11am"` (no `":"`) produces no violations and no warnings at
all. -/
theorem c10_time_conflicts_safe_witness :
    (check_time_conflicts planBadSlots).violations = [] ∧
    (check_time_conflicts planBadSlots).warnings = packed_warnings planBadSlots ∧
    packed_warnings planBadSlots = [] := by
  have h := (c10_time_conflicts_safe planBadSlots).1 (by decide)
  exact ⟨h.1, h.2, by decide⟩

/-- C6: `confirm_and_activate_plan` fails with the not-found error when
the plan id is not in storage; fails with the invalid-state error —
carrying the current state and the required VERIFIED state — when the
stored plan is not VERIFIED; and only for a stored VERIFIED plan does it
succeed, storing the plan as ACTIVE (with a fresh `updated_at`) and
recording exactly one watchdog task handle for that plan id. -/
theorem c6_confirm_and_activate (st : OrchestratorState) (plan_id : String) (now task : Nat) :
    (dictGet st.plan_storage plan_id = none →
      confirm_and_activate_plan st plan_id now task = .error (.notFound plan_id)) ∧
    (∀ plan, dictGet st.plan_storage plan_id = some plan →
        plan.status ≠ PlanStatus.VERIFIED →
      confirm_and_activate_plan st plan_id now task =
        .error (.invalidState plan.status PlanStatus.VERIFIED)) ∧
    (∀ plan, dictGet st.plan_storage plan_id = some plan →
        plan.status = PlanStatus.VERIFIED →
      confirm_and_activate_plan st plan_id now task =
        .ok
          ({ plan_storage := dictSet st.plan_storage plan_id
               { plan with status := PlanStatus.ACTIVE, updated_at := now }
             active_monitors := dictSet st.active_monitors plan_id task },
           { status := "active", monitoring_started := true, plan_id := plan_id })) := by
  refine ⟨?_, ?_, ?_⟩
  · intro h
    simp [confirm_and_activate_plan, h]
  · intro plan h hs
    simp [confirm_and_activate_plan, h, hs]
  · intro plan h hs
    simp [confirm_and_activate_plan, h, hs]

/-- C6 witness: an unknown id fails not-found; the DRAFT plan fails
invalid-state reporting DRAFT versus VERIFIED; the VERIFIED plan activates
and gains a monitor handle. -/
theorem c6_confirm_and_activate_witness :
    dictGet orchState.plan_storage "plan-x" = none ∧
    confirm_and_activate_plan orchState "plan-x" 3 7 =
      .error (.notFound "plan-x") ∧
    dictGet orchState.plan_storage "plan-d" = some planDraft ∧
    planDraft.status ≠ PlanStatus.VERIFIED ∧
    confirm_and_activate_plan orchState "plan-d" 3 7 =
      .error (.invalidState PlanStatus.DRAFT PlanStatus.VERIFIED) ∧
    dictGet orchState.plan_storage "plan-v" = some planVerified ∧
    planVerified.status = PlanStatus.VERIFIED ∧
    confirm_and_activate_plan orchState "plan-v" 3 7 =
      .ok
        ({ plan_storage := dictSet orchState.plan_storage "plan-v"
             { planVerified with status := PlanStatus.ACTIVE, updated_at := 3 }
           active_monitors := dictSet orchState.active_monitors "plan-v" 7 },
         { status := "active", monitoring_started := true, plan_id := "plan-v" }) := by
  have h1 := (c6_confirm_and_activate orchState "plan-x" 3 7).1 (by decide)
  have h2 := (c6_confirm_and_activate orchState "plan-d" 3 7).2.1 planDraft
    (by decide) (by decide)
  have h3 := (c6_confirm_and_activate orchState "plan-v" 3 7).2.2 planVerified
    (by decide) (by decide)
  exact ⟨by decide, h1, by decide, by decide, h2, by decide, by decide, h3⟩

/-- C9: `get_realtime_state` is total at its interface — its return type
carries no error case — and: a mock override is returned as-is with the
location overwritten; a successful fetch is cached and returned; a raising
fetch falls back to the cached snapshot for the location when one exists
and otherwise to the fixed default snapshot, whose fields are CLEAR
weather, 20.0 °C, precipitation probability 0.0, traffic index 5.0, and
unknown POI-open flag. -/
theorem c9_get_realtime_state_failsafe (cache : List (String × EnvironmentState))
    (mock : Option EnvironmentState) (fetch : Except String EnvironmentState)
    (location : String) (now : Nat) :
    (∀ m, mock = some m →
      get_realtime_state cache mock fetch location now =
        ({ m with location_id := location }, cache)) ∧
    (∀ s, mock = none → fetch = .ok s →
      get_realtime_state cache mock fetch location now = (s, dictSet cache location s)) ∧
    (∀ e cached, mock = none → fetch = .error e →
        dictGet cache location = some cached →
      get_realtime_state cache mock fetch location now = (cached, cache)) ∧
    (∀ e, mock = none → fetch = .error e → dictGet cache location = none →
      get_realtime_state cache mock fetch location now =
        (default_safe_state location now, cache)) ∧
    (default_safe_state location now).weather_code = .CLEAR ∧
    (default_safe_state location now).temperature = 20 ∧
    (default_safe_state location now).precipitation_probability = some 0 ∧
    (default_safe_state location now).traffic_index = 5 ∧
    (default_safe_state location now).is_poi_open = none := by
  refine ⟨?_, ?_, ?_, ?_, rfl, rfl, rfl, rfl, rfl⟩
  · rintro m rfl
    simp [get_realtime_state]
  · rintro s rfl rfl
    simp [get_realtime_state]
  · rintro e cached rfl rfl hc
    simp [get_realtime_state, hc]
  · rintro e rfl rfl hc
    simp [get_realtime_state, hc]

/-- C9 witness: with no mock and a raising fetch, the cached snapshot for
`"loc"` is returned; for the uncached `"elsewhere"` the default safe
snapshot is returned. -/
theorem c9_get_realtime_state_failsafe_witness :
    get_realtime_state cacheLoc none (.error "boom") "loc" 4 = (envBase, cacheLoc) ∧
    get_realtime_state cacheLoc none (.error "boom") "elsewhere" 4 =
      (default_safe_state "elsewhere" 4, cacheLoc) ∧
    (default_safe_state "elsewhere" 4).weather_code = .CLEAR := by
  have h1 := (c9_get_realtime_state_failsafe cacheLoc none (.error "boom") "loc" 4).2.2.1
    "boom" envBase rfl rfl (by decide)
  have h2 := (c9_get_realtime_state_failsafe cacheLoc none (.error "boom") "elsewhere" 4).2.2.2.1
    "boom" rfl rfl (by decide)
  exact ⟨h1, h2, rfl⟩

end TripPlanner
